import Mathlib

/-!
Shallow embedding of the configuration resolution and credential caching
engine of the osconfig agent (`src/config/config.go`).

Go strings are modelled as Lean `String`, Go `int`/`int64` as `Int`
(the agent targets 64-bit hosts where `int` is 64 bits wide),
`*json.Number` as `Option String` (a `json.Number` is a string of digits;
`nil` is `none`), and `time.Duration` as `Int` nanoseconds.  A Go function
that can panic is embedded with result type `Option _`, `none` standing
for the panic.  Library calls (the metadata transport, `encoding/json`
unmarshalling, `jws.Decode`) are taken as explicit function parameters.
-/

namespace OSConfig

/-- Constants from `config.go` lines 43-62. -/
def googetRepoFilePath : String := "C:/ProgramData/GooGet/repos/google_osconfig_managed.repo"

def zypperRepoFilePath : String := "/etc/zypp/repos.d/google_osconfig_managed.repo"

def yumRepoFilePath : String := "/etc/yum.repos.d/google_osconfig_managed.repo"

def aptRepoFilePath : String := "/etc/apt/sources.list.d/google_osconfig_managed.list"

def prodEndpoint : String := "osconfig.googleapis.com:443"

def osInventoryEnabledDefault : Bool := false

def guestPoliciesEnabledDefault : Bool := false

def taskNotificationEnabledDefault : Bool := false

def debugEnabledDefault : Bool := false

def osConfigPollIntervalDefault : Int := 10

/-- The `config` struct (`config.go` lines 75-80).  The field defaults here
are exactly Go's zero values, so `{}` is the Go zero `config{}`. -/
structure config where
  osInventoryEnabled : Bool := false
  guestPoliciesEnabled : Bool := false
  taskNotificationEnabled : Bool := false
  debugEnabled : Bool := false
  svcEndpoint : String := ""
  googetRepoFilePath : String := ""
  zypperRepoFilePath : String := ""
  yumRepoFilePath : String := ""
  aptRepoFilePath : String := ""
  numericProjectID : Int := 0
  osConfigPollInterval : Int := 0
  projectID : String := ""
  instanceZone : String := ""
  instanceName : String := ""
  instanceID : String := ""
deriving Repr, DecidableEq

/-- The process-level flag values (`config.go` lines 66-68): `-endpoint`,
`-debug`, `-stdout`.  Defaults are the flag defaults. -/
structure flagValues where
  endpoint : String := prodEndpoint
  debug : Bool := false
  stdout : Bool := false
deriving Repr, DecidableEq

/-- The zero-valued flag set: no flag was passed on the command line. -/
def defaultFlags : flagValues := {}

/-- The initial value of the global `agentConfig` (`config.go` line 70):
`&config{}`, the zero struct — not the hard-coded defaults. -/
def initialAgentConfig : config := {}

/-- `unicode.IsSpace` restricted to the ASCII range (the metadata
attribute values of interest are ASCII): space, tab, newline, vertical
tab, form feed, carriage return. -/
def isSpaceGo (c : Char) : Bool :=
  c = ' ' || c = '\t' || c = '\n' || c = '\x0b' || c = '\x0c' || c = '\r'

/-- `strings.TrimSpace`: drop leading and trailing white space. -/
def goTrimSpace (s : String) : String :=
  String.mk (((s.data.dropWhile isSpaceGo).reverse.dropWhile isSpaceGo).reverse)

/-- `unicode.ToLower` on one character, restricted to ASCII. -/
def goToLowerChar (c : Char) : Char :=
  if 'A' ≤ c ∧ c ≤ 'Z' then Char.ofNat (c.toNat + 32) else c

/-- `strings.ToLower`, restricted to ASCII. -/
def goToLower (s : String) : String :=
  String.mk (s.data.map goToLowerChar)

/-- Worker for `strings.Split(s, ",")`: `acc` is the current field read so
far, in reverse. -/
def splitCommaAux : List Char → List Char → List String
  | [], acc => [String.mk acc.reverse]
  | c :: cs, acc =>
    if c = ',' then String.mk acc.reverse :: splitCommaAux cs []
    else splitCommaAux cs (c :: acc)

/-- `strings.Split(s, ",")`: the substrings between commas; the split of
`""` is `[""]`. -/
def stringsSplitComma (s : String) : List String :=
  splitCommaAux s.data []

/-- Decimal digit run parser for `strconv.ParseInt`: fails on an empty
run or on any non-digit character. -/
def parseDecDigitsAux : List Char → Nat → Option Nat
  | [], acc => some acc
  | c :: cs, acc =>
    if '0' ≤ c ∧ c ≤ '9' then parseDecDigitsAux cs (acc * 10 + (c.toNat - '0'.toNat))
    else none

/-- A non-empty run of decimal digits, as a natural number. -/
def parseDecDigits : List Char → Option Nat
  | [] => none
  | ds => parseDecDigitsAux ds 0

/-- `strconv.ParseBool`: accepts exactly "1", "t", "T", "TRUE", "true",
"True", "0", "f", "F", "FALSE", "false", "False"; errors otherwise. -/
def strconvParseBool (s : String) : Option Bool :=
  if s = "1" ∨ s = "t" ∨ s = "T" ∨ s = "TRUE" ∨ s = "true" ∨ s = "True" then some true
  else if s = "0" ∨ s = "f" ∨ s = "F" ∨ s = "FALSE" ∨ s = "false" ∨ s = "False" then some false
  else none

/-- `parseBool` (`config.go` lines 102-109): a bad entry returns as not
enabled. -/
def parseBool (s : String) : Bool :=
  (strconvParseBool s).getD false

/-- `json.Number.Int64`, i.e. `strconv.ParseInt(string(n), 10, 64)`:
optional sign, decimal digits, error outside the signed 64-bit range. -/
def jsonNumberInt64 (n : String) : Option Int :=
  match n.data with
  | '+' :: ds =>
    (parseDecDigits ds).bind fun v => if v < 2 ^ 63 then some (v : Int) else none
  | '-' :: ds =>
    (parseDecDigits ds).bind fun v => if v ≤ 2 ^ 63 then some (-(v : Int)) else none
  | ds =>
    (parseDecDigits ds).bind fun v => if v < 2 ^ 63 then some (v : Int) else none

/-- `attributesJSON` (`config.go` lines 129-142).  String attributes
default to `""` (Go zero value / absent field), `*json.Number` pointers to
`none`. -/
structure attributesJSON where
  InventoryEnabledOld : String := ""
  InventoryEnabled : String := ""
  PreReleaseFeaturesOld : String := ""
  PreReleaseFeatures : String := ""
  OSConfigEnabled : String := ""
  DisabledFeatures : String := ""
  DebugEnabledOld : String := ""
  LogLevel : String := ""
  OSConfigEndpointOld : String := ""
  OSConfigEndpoint : String := ""
  PollIntervalOld : Option String := none
  PollInterval : Option String := none
deriving Repr, DecidableEq

/-- `instanceJSON` (`config.go` lines 116-121); `ID` is a `*json.Number`. -/
structure instanceJSON where
  Attributes : attributesJSON := {}
  Zone : String := ""
  Name : String := ""
  ID : Option String := none
deriving Repr, DecidableEq

/-- `projectJSON` (`config.go` lines 123-127). -/
structure projectJSON where
  Attributes : attributesJSON := {}
  ProjectID : String := ""
  NumericProjectID : Int := 0
deriving Repr, DecidableEq

/-- `metadataJSON` (`config.go` lines 111-114). -/
structure metadataJSON where
  Instance : instanceJSON := {}
  Project : projectJSON := {}
deriving Repr, DecidableEq

/-- One token of the feature list after normalisation, dispatched by the
`switch` in `parseFeatures` (`config.go` lines 85-92). -/
def applyFeatureToken (c : config) (f : String) (enabled : Bool) : config :=
  if f = "tasks" ∨ f = "ospatch" then { c with taskNotificationEnabled := enabled }
  else if f = "guestpolicies" ∨ f = "ospackage" then { c with guestPoliciesEnabled := enabled }
  else if f = "osinventory" then { c with osInventoryEnabled := enabled }
  else c

/-- Token normalisation in `parseFeatures` (`config.go` line 84):
`strings.ToLower(strings.TrimSpace(f))`. -/
def normalizeToken (f : String) : String :=
  goToLower (goTrimSpace f)

/-- The loop body of `parseFeatures` over an already-split token list. -/
def parseFeaturesList (c : config) (ts : List String) (enabled : Bool) : config :=
  ts.foldl (fun c f => applyFeatureToken c (normalizeToken f) enabled) c

/-- `(*config).parseFeatures` (`config.go` lines 82-94):
`strings.Split(features, ",")`, each token lower-cased and trimmed, then
dispatched; unrecognised tokens fall through the `switch`. -/
def parseFeatures (c : config) (features : String) (enabled : Bool) : config :=
  parseFeaturesList c (stringsSplitComma features) enabled

/-- The per-tier attribute block (`config.go` lines 184-198 for the project
tier and the textually identical lines 200-215 for the instance tier):
inventory switch (current name, else legacy), prerelease feature lists,
`enable-osconfig` master switch, disabled-features list. -/
def applyTierAttributes (a : attributesJSON) (c : config) : config :=
  let c :=
    if a.InventoryEnabled ≠ "" then { c with osInventoryEnabled := parseBool a.InventoryEnabled }
    else if a.InventoryEnabledOld ≠ "" then { c with osInventoryEnabled := parseBool a.InventoryEnabledOld }
    else c
  let c := parseFeatures c a.PreReleaseFeaturesOld true
  let c := parseFeatures c a.PreReleaseFeatures true
  let c :=
    if a.OSConfigEnabled ≠ "" then
      let e := parseBool a.OSConfigEnabled
      { c with taskNotificationEnabled := e, guestPoliciesEnabled := e, osInventoryEnabled := e }
    else c
  parseFeatures c a.DisabledFeatures false

/-- The project poll-interval switch (`config.go` lines 217-226): current
name first, else legacy name; a value that fails `Int64()` is ignored. -/
def applyProjectPollInterval (a : attributesJSON) (c : config) : config :=
  match a.PollInterval with
  | some n =>
    match jsonNumberInt64 n with
    | some v => { c with osConfigPollInterval := v }
    | none => c
  | none =>
    match a.PollIntervalOld with
    | some n =>
      match jsonNumberInt64 n with
      | some v => { c with osConfigPollInterval := v }
      | none => c
    | none => c

/-- The instance poll-interval switch (`config.go` lines 228-237).  NOTE:
the legacy-name case at line 234 calls `md.Instance.Attributes.PollInterval.Int64()`
— the current-name pointer, at this point known to be `nil` — instead of
`PollIntervalOld.Int64()`, so the running program dereferences a nil
`*json.Number` and panics.  The panic is embedded as `none`. -/
def applyInstancePollInterval (a : attributesJSON) (c : config) : Option config :=
  match a.PollInterval with
  | some n =>
    match jsonNumberInt64 n with
    | some v => some { c with osConfigPollInterval := v }
    | none => some c
  | none =>
    match a.PollIntervalOld with
    | some _ => none
    | none => some c

/-- The debug switch (`config.go` lines 239-244): the first matching case
wins, and the project case is listed first. -/
def applyDebug (md : metadataJSON) (c : config) : config :=
  if md.Project.Attributes.DebugEnabledOld ≠ "" then
    { c with debugEnabled := parseBool md.Project.Attributes.DebugEnabledOld }
  else if md.Instance.Attributes.DebugEnabledOld ≠ "" then
    { c with debugEnabled := parseBool md.Instance.Attributes.DebugEnabledOld }
  else c

/-- One log-level switch (`config.go` lines 246-251 and 253-258):
`switch strings.ToLower(level)`. -/
def applyLogLevel (level : String) (c : config) : config :=
  if goToLower level = "debug" then { c with debugEnabled := true }
  else if goToLower level = "info" then { c with debugEnabled := false }
  else c

/-- The endpoint switch (`config.go` lines 265-276): non-default process
flag wins, else instance current, instance legacy, project current,
project legacy; otherwise the initial `prodEndpoint` stands. -/
def applyEndpoint (fl : flagValues) (md : metadataJSON) (c : config) : config :=
  if fl.endpoint ≠ prodEndpoint then { c with svcEndpoint := fl.endpoint }
  else if md.Instance.Attributes.OSConfigEndpoint ≠ "" then
    { c with svcEndpoint := md.Instance.Attributes.OSConfigEndpoint }
  else if md.Instance.Attributes.OSConfigEndpointOld ≠ "" then
    { c with svcEndpoint := md.Instance.Attributes.OSConfigEndpointOld }
  else if md.Project.Attributes.OSConfigEndpoint ≠ "" then
    { c with svcEndpoint := md.Project.Attributes.OSConfigEndpoint }
  else if md.Project.Attributes.OSConfigEndpointOld ≠ "" then
    { c with svcEndpoint := md.Project.Attributes.OSConfigEndpointOld }
  else c

/-- The tail of `createConfigFromMetadata` after the instance poll-interval
switch (`config.go` lines 239-278): debug switch, the two log-level
switches, the `-debug` flag override, the endpoint switch. -/
def finishConfig (fl : flagValues) (md : metadataJSON) (c : config) : config :=
  let c := applyDebug md c
  let c := applyLogLevel md.Project.Attributes.LogLevel c
  let c := applyLogLevel md.Instance.Attributes.LogLevel c
  let c := if fl.debug then { c with debugEnabled := true } else c
  applyEndpoint fl md c

/-- The initial composite literal of `createConfigFromMetadata`
(`config.go` lines 146-164): hard-coded defaults plus the identity fields
carried forward from the previously stored configuration. -/
def baseConfig (old : config) : config :=
  { osInventoryEnabled := osInventoryEnabledDefault
    guestPoliciesEnabled := guestPoliciesEnabledDefault
    taskNotificationEnabled := taskNotificationEnabledDefault
    debugEnabled := debugEnabledDefault
    svcEndpoint := prodEndpoint
    osConfigPollInterval := osConfigPollIntervalDefault
    googetRepoFilePath := googetRepoFilePath
    zypperRepoFilePath := zypperRepoFilePath
    yumRepoFilePath := yumRepoFilePath
    aptRepoFilePath := aptRepoFilePath
    projectID := old.projectID
    numericProjectID := old.numericProjectID
    instanceZone := old.instanceZone
    instanceName := old.instanceName
    instanceID := old.instanceID }

/-- The identity-field updates (`config.go` lines 166-180): a non-empty /
non-zero / non-nil document value replaces the carried-forward one. -/
def applyIdentity (md : metadataJSON) (c : config) : config :=
  let c := if md.Project.ProjectID ≠ "" then { c with projectID := md.Project.ProjectID } else c
  let c := if md.Project.NumericProjectID ≠ 0 then { c with numericProjectID := md.Project.NumericProjectID } else c
  let c := if md.Instance.Zone ≠ "" then { c with instanceZone := md.Instance.Zone } else c
  let c := if md.Instance.Name ≠ "" then { c with instanceName := md.Instance.Name } else c
  match md.Instance.ID with
  | some n => { c with instanceID := n }
  | none => c

/-- `createConfigFromMetadata` (`config.go` lines 144-279).  `old` is the
previously stored configuration read by `getAgentConfig()`; `fl` holds the
process flag values.  Result `none` is the nil-pointer panic of the
instance poll-interval switch (see `applyInstancePollInterval`). -/
def createConfigFromMetadata (fl : flagValues) (old : config) (md : metadataJSON) : Option config :=
  let c := applyIdentity md (baseConfig old)
  let c := applyTierAttributes md.Project.Attributes c
  let c := applyTierAttributes md.Instance.Attributes c
  let c := applyProjectPollInterval md.Project.Attributes c
  match applyInstancePollInterval md.Instance.Attributes c with
  | some c => some (finishConfig fl md c)
  | none => none

/-- The shape of a transport error returned by `metadata.Get`, as far as
`formatMetadataError` inspects it: a `*url.Error` wrapping a
`*net.DNSError`, a `*url.Error` wrapping a `*net.OpError`, or anything
else (carrying its message). -/
inductive transportError where
  | urlDNS (s : String)
  | urlOp (s : String)
  | other (s : String)
deriving Repr, DecidableEq

/-- `formatMetadataError` (`config.go` lines 281-291): classify the final
transport error into a human-actionable message; any other error is
returned as it came.  Errors are modelled by their message strings. -/
def formatMetadataError : transportError → String
  | .urlDNS _ => "DNS error when requesting metadata, check DNS settings and ensure metadata.google.internal is setup in your hosts file"
  | .urlOp _ => "network error when requesting metadata, make sure your instance has an active network and can reach the metadata server"
  | .other s => s

/-- The error returned by `SetConfig`: either the `json.Unmarshal` error
(line 321) or the web error from the fetch loop (line 329, possibly
already formatted). -/
inductive setConfigError where
  | unmarshalErr (s : String)
  | webErr (s : String)
deriving Repr, DecidableEq

/-- The wait between fetch attempts (`time.NewTicker(5 * time.Second)`),
in seconds. -/
def interAttemptDelay : Nat := 5

/-- `SetConfig` (`config.go` lines 294-330), for runs in which the context
is never cancelled (the `ctx.Done()` branch is not taken).  `fetch i` is
the result of the `i`-th `metadata.Get("?recursive=true&alt=json")` call —
on error the returned document is the empty string — and `unmarshal`
stands for `json.Unmarshal` into `metadataJSON`.  `store` is the value of
the global `agentConfig` before the call.

The result is `(outcome, attempts, delays)`: `outcome` is `none` when the
call panics (inside `createConfigFromMetadata`), otherwise
`some (newStore, returnedError)`; `attempts` counts the `metadata.Get`
calls; `delays` lists the ticker waits taken, in seconds. -/
def SetConfig (unmarshal : String → Except String metadataJSON)
    (fetch : Nat → Except transportError String) (fl : flagValues)
    (store : config) : Option (config × Option setConfigError) × Nat × List Nat :=
  let rest : String → Option String → Nat → List Nat →
      Option (config × Option setConfigError) × Nat × List Nat :=
    fun md webError attempts delays =>
      match unmarshal md with
      | .error e => (some (store, some (.unmarshalErr e)), attempts, delays)
      | .ok m =>
        match createConfigFromMetadata fl store m with
        | none => (none, attempts, delays)
        | some c => (some (c, webError.map .webErr), attempts, delays)
  match fetch 0 with
  | .ok md => rest md none 1 []
  | .error _ =>
    match fetch 1 with
    | .ok md => rest md none 2 [interAttemptDelay]
    | .error _ =>
      match fetch 2 with
      | .ok md => rest md none 3 [interAttemptDelay, interAttemptDelay]
      | .error e =>
        rest "" (some (formatMetadataError e)) 3 [interAttemptDelay, interAttemptDelay]

/-! Typed accessors (`config.go` lines 332-435).  Each reads the stored
configuration (`getAgentConfig()`) — modelled by passing the store value —
and projects one field.  Durations are `Int` nanoseconds. -/

/-- One minute, in nanoseconds (`time.Minute`). -/
def timeMinute : Int := 60000000000

/-- One second, in nanoseconds (`time.Second`). -/
def timeSecond : Int := 1000000000

/-- `SvcPollInterval` (`config.go` lines 333-335). -/
def SvcPollInterval (store : config) : Int :=
  store.osConfigPollInterval * timeMinute

/-- `MaxMetadataRetryDelay` (`config.go` lines 338-340). -/
def MaxMetadataRetryDelay : Int := 30 * timeSecond

/-- `MaxMetadataRetries` (`config.go` lines 343-345). -/
def MaxMetadataRetries : Int := 3

/-- `Debug` (`config.go` lines 357-359): the `-debug` flag or the stored
debug setting. -/
def Debug (fl : flagValues) (store : config) : Bool :=
  fl.debug || store.debugEnabled

/-- `Stdout` (`config.go` lines 362-364). -/
def Stdout (fl : flagValues) : Bool := fl.stdout

/-- `SvcEndpoint` (`config.go` lines 367-369). -/
def SvcEndpoint (store : config) : String := store.svcEndpoint

/-- `ZypperRepoFilePath` accessor (`config.go` lines 372-374). -/
def ZypperRepoFilePathAcc (store : config) : String := store.zypperRepoFilePath

/-- `YumRepoFilePath` accessor (`config.go` lines 377-379). -/
def YumRepoFilePathAcc (store : config) : String := store.yumRepoFilePath

/-- `AptRepoFilePath` accessor (`config.go` lines 382-384). -/
def AptRepoFilePathAcc (store : config) : String := store.aptRepoFilePath

/-- `GooGetRepoFilePath` accessor (`config.go` lines 387-389). -/
def GooGetRepoFilePathAcc (store : config) : String := store.googetRepoFilePath

/-- `OSInventoryEnabled` (`config.go` lines 392-394). -/
def OSInventoryEnabled (store : config) : Bool := store.osInventoryEnabled

/-- `GuestPoliciesEnabled` (`config.go` lines 397-399). -/
def GuestPoliciesEnabled (store : config) : Bool := store.guestPoliciesEnabled

/-- `TaskNotificationEnabled` (`config.go` lines 402-404). -/
def TaskNotificationEnabled (store : config) : Bool := store.taskNotificationEnabled

/-- `NumericProjectID` (`config.go` lines 413-415). -/
def NumericProjectID (store : config) : Int := store.numericProjectID

/-- `ProjectID` (`config.go` lines 418-420). -/
def ProjectID (store : config) : String := store.projectID

/-- `Zone` (`config.go` lines 423-425). -/
def Zone (store : config) : String := store.instanceZone

/-- `Name` (`config.go` lines 428-430). -/
def Name (store : config) : String := store.instanceName

/-- `ID` (`config.go` lines 433-435). -/
def ID (store : config) : String := store.instanceID

/-! The identity-token cache (`config.go` lines 437-476).  Time is `Int`
Unix seconds; `exp` is the decoded expiry claim (`time.Unix(cs.Exp, 0)`).
The `metadata.Get(IdentityTokenPath)` fetch and `jws.Decode` are taken as
parameters; `decode` returns the `Exp` claim of the decoded token. -/

/-- The `idToken` struct (`config.go` lines 437-441), minus its mutex. -/
structure idToken where
  raw : String := ""
  exp : Option Int := none
deriving Repr, DecidableEq

/-- `(*idToken).get` (`config.go` lines 443-459): fetch the token, decode
it, and on success store the raw token and its expiry; on either failure
return the error leaving the struct untouched.  Result is the new struct
state paired with the returned error (`none` = nil error). -/
def idTokenGet (fetch : Except String String) (decode : String → Except String Int)
    (t : idToken) : idToken × Option String :=
  match fetch with
  | .error e => (t, some ("error getting token from metadata: " ++ e))
  | .ok data =>
    match decode data with
    | .error e => (t, some e)
    | .ok exp => ({ raw := data, exp := some exp }, none)

/-- The refresh condition of `IDToken` (`config.go` line 469):
`identity.exp == nil || time.Now().After(identity.exp.Add(-10*time.Minute))`,
with `now` and the expiry in Unix seconds (10 minutes = 600 seconds). -/
def idTokenNeedsRefresh (now : Int) (t : idToken) : Bool :=
  match t.exp with
  | none => true
  | some e => decide (now > e - 600)

/-- `IDToken` (`config.go` lines 464-476).  Result is
`(cache state after the call, returned token or error, number of fetches
performed)`. -/
def IDToken (now : Int) (fetch : Except String String)
    (decode : String → Except String Int) (t : idToken) :
    idToken × Except String String × Nat :=
  if idTokenNeedsRefresh now t then
    match idTokenGet fetch decode t with
    | (t2, some e) => (t2, Except.error e, 1)
    | (t2, none) => (t2, Except.ok t2.raw, 1)
  else
    (t, Except.ok t.raw, 0)

/-! Preservation lemmas: which fields each merge stage leaves unchanged. -/

@[simp]
theorem applyFeatureToken_svcEndpoint (c : config) (f : String) (e : Bool) :
    (applyFeatureToken c f e).svcEndpoint = c.svcEndpoint := by
  unfold applyFeatureToken
  split
  · rfl
  split
  · rfl
  split <;> rfl

@[simp]
theorem applyFeatureToken_debugEnabled (c : config) (f : String) (e : Bool) :
    (applyFeatureToken c f e).debugEnabled = c.debugEnabled := by
  unfold applyFeatureToken
  split
  · rfl
  split
  · rfl
  split <;> rfl

@[simp]
theorem parseFeaturesList_svcEndpoint (ts : List String) (c : config) (e : Bool) :
    (parseFeaturesList c ts e).svcEndpoint = c.svcEndpoint := by
  induction ts generalizing c with
  | nil => rfl
  | cons t ts ih =>
    show (parseFeaturesList (applyFeatureToken c (normalizeToken t) e) ts e).svcEndpoint = _
    rw [ih, applyFeatureToken_svcEndpoint]

@[simp]
theorem parseFeaturesList_debugEnabled (ts : List String) (c : config) (e : Bool) :
    (parseFeaturesList c ts e).debugEnabled = c.debugEnabled := by
  induction ts generalizing c with
  | nil => rfl
  | cons t ts ih =>
    show (parseFeaturesList (applyFeatureToken c (normalizeToken t) e) ts e).debugEnabled = _
    rw [ih, applyFeatureToken_debugEnabled]

@[simp]
theorem parseFeatures_svcEndpoint (c : config) (s : String) (e : Bool) :
    (parseFeatures c s e).svcEndpoint = c.svcEndpoint :=
  parseFeaturesList_svcEndpoint _ _ _

@[simp]
theorem parseFeatures_debugEnabled (c : config) (s : String) (e : Bool) :
    (parseFeatures c s e).debugEnabled = c.debugEnabled :=
  parseFeaturesList_debugEnabled _ _ _

@[simp]
theorem applyTierAttributes_svcEndpoint (a : attributesJSON) (c : config) :
    (applyTierAttributes a c).svcEndpoint = c.svcEndpoint := by
  unfold applyTierAttributes
  simp [apply_ite (f := config.svcEndpoint)]

@[simp]
theorem applyTierAttributes_debugEnabled (a : attributesJSON) (c : config) :
    (applyTierAttributes a c).debugEnabled = c.debugEnabled := by
  unfold applyTierAttributes
  simp [apply_ite (f := config.debugEnabled)]

@[simp]
theorem applyProjectPollInterval_svcEndpoint (a : attributesJSON) (c : config) :
    (applyProjectPollInterval a c).svcEndpoint = c.svcEndpoint := by
  unfold applyProjectPollInterval
  split
  · split <;> rfl
  split
  · split <;> rfl
  rfl

@[simp]
theorem applyProjectPollInterval_debugEnabled (a : attributesJSON) (c : config) :
    (applyProjectPollInterval a c).debugEnabled = c.debugEnabled := by
  unfold applyProjectPollInterval
  split
  · split <;> rfl
  split
  · split <;> rfl
  rfl

@[simp]
theorem applyDebug_svcEndpoint (md : metadataJSON) (c : config) :
    (applyDebug md c).svcEndpoint = c.svcEndpoint := by
  unfold applyDebug
  split
  · rfl
  split <;> rfl

@[simp]
theorem applyLogLevel_svcEndpoint (level : String) (c : config) :
    (applyLogLevel level c).svcEndpoint = c.svcEndpoint := by
  unfold applyLogLevel
  split
  · rfl
  split <;> rfl

@[simp]
theorem applyEndpoint_debugEnabled (fl : flagValues) (md : metadataJSON) (c : config) :
    (applyEndpoint fl md c).debugEnabled = c.debugEnabled := by
  unfold applyEndpoint
  split
  · rfl
  split
  · rfl
  split
  · rfl
  split
  · rfl
  split <;> rfl

@[simp]
theorem applyFeatureToken_projectID (c : config) (f : String) (e : Bool) :
    (applyFeatureToken c f e).projectID = c.projectID := by
  unfold applyFeatureToken
  split
  · rfl
  split
  · rfl
  split <;> rfl

@[simp]
theorem parseFeaturesList_projectID (ts : List String) (c : config) (e : Bool) :
    (parseFeaturesList c ts e).projectID = c.projectID := by
  induction ts generalizing c with
  | nil => rfl
  | cons t ts ih =>
    show (parseFeaturesList (applyFeatureToken c (normalizeToken t) e) ts e).projectID = _
    rw [ih, applyFeatureToken_projectID]

@[simp]
theorem parseFeatures_projectID (c : config) (s : String) (e : Bool) :
    (parseFeatures c s e).projectID = c.projectID :=
  parseFeaturesList_projectID _ _ _

@[simp]
theorem applyTierAttributes_projectID (a : attributesJSON) (c : config) :
    (applyTierAttributes a c).projectID = c.projectID := by
  unfold applyTierAttributes
  simp [apply_ite (f := config.projectID)]

@[simp]
theorem applyProjectPollInterval_projectID (a : attributesJSON) (c : config) :
    (applyProjectPollInterval a c).projectID = c.projectID := by
  unfold applyProjectPollInterval
  split
  · split <;> rfl
  split
  · split <;> rfl
  rfl

@[simp]
theorem applyDebug_projectID (md : metadataJSON) (c : config) :
    (applyDebug md c).projectID = c.projectID := by
  unfold applyDebug
  split
  · rfl
  split <;> rfl

@[simp]
theorem applyLogLevel_projectID (level : String) (c : config) :
    (applyLogLevel level c).projectID = c.projectID := by
  unfold applyLogLevel
  split
  · rfl
  split <;> rfl

@[simp]
theorem applyEndpoint_projectID (fl : flagValues) (md : metadataJSON) (c : config) :
    (applyEndpoint fl md c).projectID = c.projectID := by
  unfold applyEndpoint
  split
  · rfl
  split
  · rfl
  split
  · rfl
  split
  · rfl
  split <;> rfl

@[simp]
theorem finishConfig_projectID (fl : flagValues) (md : metadataJSON) (c : config) :
    (finishConfig fl md c).projectID = c.projectID := by
  unfold finishConfig
  simp [apply_ite (f := config.projectID)]

@[simp]
theorem applyFeatureToken_numericProjectID (c : config) (f : String) (e : Bool) :
    (applyFeatureToken c f e).numericProjectID = c.numericProjectID := by
  unfold applyFeatureToken
  split
  · rfl
  split
  · rfl
  split <;> rfl

@[simp]
theorem parseFeaturesList_numericProjectID (ts : List String) (c : config) (e : Bool) :
    (parseFeaturesList c ts e).numericProjectID = c.numericProjectID := by
  induction ts generalizing c with
  | nil => rfl
  | cons t ts ih =>
    show (parseFeaturesList (applyFeatureToken c (normalizeToken t) e) ts e).numericProjectID = _
    rw [ih, applyFeatureToken_numericProjectID]

@[simp]
theorem parseFeatures_numericProjectID (c : config) (s : String) (e : Bool) :
    (parseFeatures c s e).numericProjectID = c.numericProjectID :=
  parseFeaturesList_numericProjectID _ _ _

@[simp]
theorem applyTierAttributes_numericProjectID (a : attributesJSON) (c : config) :
    (applyTierAttributes a c).numericProjectID = c.numericProjectID := by
  unfold applyTierAttributes
  simp [apply_ite (f := config.numericProjectID)]

@[simp]
theorem applyProjectPollInterval_numericProjectID (a : attributesJSON) (c : config) :
    (applyProjectPollInterval a c).numericProjectID = c.numericProjectID := by
  unfold applyProjectPollInterval
  split
  · split <;> rfl
  split
  · split <;> rfl
  rfl

@[simp]
theorem applyDebug_numericProjectID (md : metadataJSON) (c : config) :
    (applyDebug md c).numericProjectID = c.numericProjectID := by
  unfold applyDebug
  split
  · rfl
  split <;> rfl

@[simp]
theorem applyLogLevel_numericProjectID (level : String) (c : config) :
    (applyLogLevel level c).numericProjectID = c.numericProjectID := by
  unfold applyLogLevel
  split
  · rfl
  split <;> rfl

@[simp]
theorem applyEndpoint_numericProjectID (fl : flagValues) (md : metadataJSON) (c : config) :
    (applyEndpoint fl md c).numericProjectID = c.numericProjectID := by
  unfold applyEndpoint
  split
  · rfl
  split
  · rfl
  split
  · rfl
  split
  · rfl
  split <;> rfl

@[simp]
theorem finishConfig_numericProjectID (fl : flagValues) (md : metadataJSON) (c : config) :
    (finishConfig fl md c).numericProjectID = c.numericProjectID := by
  unfold finishConfig
  simp [apply_ite (f := config.numericProjectID)]

@[simp]
theorem applyFeatureToken_instanceZone (c : config) (f : String) (e : Bool) :
    (applyFeatureToken c f e).instanceZone = c.instanceZone := by
  unfold applyFeatureToken
  split
  · rfl
  split
  · rfl
  split <;> rfl

@[simp]
theorem parseFeaturesList_instanceZone (ts : List String) (c : config) (e : Bool) :
    (parseFeaturesList c ts e).instanceZone = c.instanceZone := by
  induction ts generalizing c with
  | nil => rfl
  | cons t ts ih =>
    show (parseFeaturesList (applyFeatureToken c (normalizeToken t) e) ts e).instanceZone = _
    rw [ih, applyFeatureToken_instanceZone]

@[simp]
theorem parseFeatures_instanceZone (c : config) (s : String) (e : Bool) :
    (parseFeatures c s e).instanceZone = c.instanceZone :=
  parseFeaturesList_instanceZone _ _ _

@[simp]
theorem applyTierAttributes_instanceZone (a : attributesJSON) (c : config) :
    (applyTierAttributes a c).instanceZone = c.instanceZone := by
  unfold applyTierAttributes
  simp [apply_ite (f := config.instanceZone)]

@[simp]
theorem applyProjectPollInterval_instanceZone (a : attributesJSON) (c : config) :
    (applyProjectPollInterval a c).instanceZone = c.instanceZone := by
  unfold applyProjectPollInterval
  split
  · split <;> rfl
  split
  · split <;> rfl
  rfl

@[simp]
theorem applyDebug_instanceZone (md : metadataJSON) (c : config) :
    (applyDebug md c).instanceZone = c.instanceZone := by
  unfold applyDebug
  split
  · rfl
  split <;> rfl

@[simp]
theorem applyLogLevel_instanceZone (level : String) (c : config) :
    (applyLogLevel level c).instanceZone = c.instanceZone := by
  unfold applyLogLevel
  split
  · rfl
  split <;> rfl

@[simp]
theorem applyEndpoint_instanceZone (fl : flagValues) (md : metadataJSON) (c : config) :
    (applyEndpoint fl md c).instanceZone = c.instanceZone := by
  unfold applyEndpoint
  split
  · rfl
  split
  · rfl
  split
  · rfl
  split
  · rfl
  split <;> rfl

@[simp]
theorem finishConfig_instanceZone (fl : flagValues) (md : metadataJSON) (c : config) :
    (finishConfig fl md c).instanceZone = c.instanceZone := by
  unfold finishConfig
  simp [apply_ite (f := config.instanceZone)]

@[simp]
theorem applyFeatureToken_instanceName (c : config) (f : String) (e : Bool) :
    (applyFeatureToken c f e).instanceName = c.instanceName := by
  unfold applyFeatureToken
  split
  · rfl
  split
  · rfl
  split <;> rfl

@[simp]
theorem parseFeaturesList_instanceName (ts : List String) (c : config) (e : Bool) :
    (parseFeaturesList c ts e).instanceName = c.instanceName := by
  induction ts generalizing c with
  | nil => rfl
  | cons t ts ih =>
    show (parseFeaturesList (applyFeatureToken c (normalizeToken t) e) ts e).instanceName = _
    rw [ih, applyFeatureToken_instanceName]

@[simp]
theorem parseFeatures_instanceName (c : config) (s : String) (e : Bool) :
    (parseFeatures c s e).instanceName = c.instanceName :=
  parseFeaturesList_instanceName _ _ _

@[simp]
theorem applyTierAttributes_instanceName (a : attributesJSON) (c : config) :
    (applyTierAttributes a c).instanceName = c.instanceName := by
  unfold applyTierAttributes
  simp [apply_ite (f := config.instanceName)]

@[simp]
theorem applyProjectPollInterval_instanceName (a : attributesJSON) (c : config) :
    (applyProjectPollInterval a c).instanceName = c.instanceName := by
  unfold applyProjectPollInterval
  split
  · split <;> rfl
  split
  · split <;> rfl
  rfl

@[simp]
theorem applyDebug_instanceName (md : metadataJSON) (c : config) :
    (applyDebug md c).instanceName = c.instanceName := by
  unfold applyDebug
  split
  · rfl
  split <;> rfl

@[simp]
theorem applyLogLevel_instanceName (level : String) (c : config) :
    (applyLogLevel level c).instanceName = c.instanceName := by
  unfold applyLogLevel
  split
  · rfl
  split <;> rfl

@[simp]
theorem applyEndpoint_instanceName (fl : flagValues) (md : metadataJSON) (c : config) :
    (applyEndpoint fl md c).instanceName = c.instanceName := by
  unfold applyEndpoint
  split
  · rfl
  split
  · rfl
  split
  · rfl
  split
  · rfl
  split <;> rfl

@[simp]
theorem finishConfig_instanceName (fl : flagValues) (md : metadataJSON) (c : config) :
    (finishConfig fl md c).instanceName = c.instanceName := by
  unfold finishConfig
  simp [apply_ite (f := config.instanceName)]

@[simp]
theorem applyFeatureToken_instanceID (c : config) (f : String) (e : Bool) :
    (applyFeatureToken c f e).instanceID = c.instanceID := by
  unfold applyFeatureToken
  split
  · rfl
  split
  · rfl
  split <;> rfl

@[simp]
theorem parseFeaturesList_instanceID (ts : List String) (c : config) (e : Bool) :
    (parseFeaturesList c ts e).instanceID = c.instanceID := by
  induction ts generalizing c with
  | nil => rfl
  | cons t ts ih =>
    show (parseFeaturesList (applyFeatureToken c (normalizeToken t) e) ts e).instanceID = _
    rw [ih, applyFeatureToken_instanceID]

@[simp]
theorem parseFeatures_instanceID (c : config) (s : String) (e : Bool) :
    (parseFeatures c s e).instanceID = c.instanceID :=
  parseFeaturesList_instanceID _ _ _

@[simp]
theorem applyTierAttributes_instanceID (a : attributesJSON) (c : config) :
    (applyTierAttributes a c).instanceID = c.instanceID := by
  unfold applyTierAttributes
  simp [apply_ite (f := config.instanceID)]

@[simp]
theorem applyProjectPollInterval_instanceID (a : attributesJSON) (c : config) :
    (applyProjectPollInterval a c).instanceID = c.instanceID := by
  unfold applyProjectPollInterval
  split
  · split <;> rfl
  split
  · split <;> rfl
  rfl

@[simp]
theorem applyDebug_instanceID (md : metadataJSON) (c : config) :
    (applyDebug md c).instanceID = c.instanceID := by
  unfold applyDebug
  split
  · rfl
  split <;> rfl

@[simp]
theorem applyLogLevel_instanceID (level : String) (c : config) :
    (applyLogLevel level c).instanceID = c.instanceID := by
  unfold applyLogLevel
  split
  · rfl
  split <;> rfl

@[simp]
theorem applyEndpoint_instanceID (fl : flagValues) (md : metadataJSON) (c : config) :
    (applyEndpoint fl md c).instanceID = c.instanceID := by
  unfold applyEndpoint
  split
  · rfl
  split
  · rfl
  split
  · rfl
  split
  · rfl
  split <;> rfl

@[simp]
theorem finishConfig_instanceID (fl : flagValues) (md : metadataJSON) (c : config) :
    (finishConfig fl md c).instanceID = c.instanceID := by
  unfold finishConfig
  simp [apply_ite (f := config.instanceID)]

@[simp]
theorem applyIdentity_svcEndpoint (md : metadataJSON) (c : config) :
    (applyIdentity md c).svcEndpoint = c.svcEndpoint := by
  unfold applyIdentity
  cases md.Instance.ID <;> simp [apply_ite (f := config.svcEndpoint)]

@[simp]
theorem applyIdentity_debugEnabled (md : metadataJSON) (c : config) :
    (applyIdentity md c).debugEnabled = c.debugEnabled := by
  unfold applyIdentity
  cases md.Instance.ID <;> simp [apply_ite (f := config.debugEnabled)]

@[simp]
theorem applyIdentity_projectID (md : metadataJSON) (c : config) :
    (applyIdentity md c).projectID =
      if md.Project.ProjectID = "" then c.projectID else md.Project.ProjectID := by
  unfold applyIdentity
  cases md.Instance.ID <;> simp [apply_ite (f := config.projectID)]

@[simp]
theorem applyIdentity_numericProjectID (md : metadataJSON) (c : config) :
    (applyIdentity md c).numericProjectID =
      if md.Project.NumericProjectID = 0 then c.numericProjectID else md.Project.NumericProjectID := by
  unfold applyIdentity
  cases md.Instance.ID <;> simp [apply_ite (f := config.numericProjectID)]

@[simp]
theorem applyIdentity_instanceZone (md : metadataJSON) (c : config) :
    (applyIdentity md c).instanceZone =
      if md.Instance.Zone = "" then c.instanceZone else md.Instance.Zone := by
  unfold applyIdentity
  cases md.Instance.ID <;> simp [apply_ite (f := config.instanceZone)]

@[simp]
theorem applyIdentity_instanceName (md : metadataJSON) (c : config) :
    (applyIdentity md c).instanceName =
      if md.Instance.Name = "" then c.instanceName else md.Instance.Name := by
  unfold applyIdentity
  cases md.Instance.ID <;> simp [apply_ite (f := config.instanceName)]

@[simp]
theorem applyIdentity_instanceID (md : metadataJSON) (c : config) :
    (applyIdentity md c).instanceID =
      match md.Instance.ID with
      | some n => n
      | none => c.instanceID := by
  unfold applyIdentity
  cases md.Instance.ID <;> simp [apply_ite (f := config.instanceID)]

/-- A successful instance poll-interval switch changes at most the poll
interval. -/
theorem applyInstancePollInterval_preserves (a : attributesJSON) (c c2 : config)
    (h : applyInstancePollInterval a c = some c2) :
    c2.svcEndpoint = c.svcEndpoint ∧ c2.debugEnabled = c.debugEnabled ∧
      c2.projectID = c.projectID ∧ c2.numericProjectID = c.numericProjectID ∧
      c2.instanceZone = c.instanceZone ∧ c2.instanceName = c.instanceName ∧
      c2.instanceID = c.instanceID := by
  unfold applyInstancePollInterval at h
  split at h
  · split at h <;> (cases h; exact ⟨rfl, rfl, rfl, rfl, rfl, rfl, rfl⟩)
  split at h
  · cases h
  cases h
  exact ⟨rfl, rfl, rfl, rfl, rfl, rfl, rfl⟩

/-- `applyEndpoint` computes exactly the five-way precedence chain,
falling back to the incoming endpoint. -/
theorem applyEndpoint_svcEndpoint (fl : flagValues) (md : metadataJSON) (c : config) :
    (applyEndpoint fl md c).svcEndpoint =
      if fl.endpoint ≠ prodEndpoint then fl.endpoint
      else if md.Instance.Attributes.OSConfigEndpoint ≠ "" then md.Instance.Attributes.OSConfigEndpoint
      else if md.Instance.Attributes.OSConfigEndpointOld ≠ "" then md.Instance.Attributes.OSConfigEndpointOld
      else if md.Project.Attributes.OSConfigEndpoint ≠ "" then md.Project.Attributes.OSConfigEndpoint
      else if md.Project.Attributes.OSConfigEndpointOld ≠ "" then md.Project.Attributes.OSConfigEndpointOld
      else c.svcEndpoint := by
  unfold applyEndpoint
  split
  · simp_all
  split
  · simp_all
  split
  · simp_all
  split
  · simp_all
  split <;> simp_all

/-- The log-level switch ignores an absent (empty) log-level attribute. -/
theorem applyLogLevel_empty (c : config) : applyLogLevel "" c = c := rfl

/-- `parseFeatures` depends only on the normalised token list: token lists
equal after per-token trimming and lower-casing fold to the same result. -/
theorem parseFeaturesList_congr (ts us : List String) (c : config) (e : Bool)
    (h : ts.map normalizeToken = us.map normalizeToken) :
    parseFeaturesList c ts e = parseFeaturesList c us e := by
  induction ts generalizing us c with
  | nil =>
    cases us with
    | nil => rfl
    | cons u us => simp at h
  | cons t ts ih =>
    cases us with
    | nil => simp at h
    | cons u us =>
      simp only [List.map_cons, List.cons.injEq] at h
      obtain ⟨h1, h2⟩ := h
      show parseFeaturesList (applyFeatureToken c (normalizeToken t) e) ts e =
        parseFeaturesList (applyFeatureToken c (normalizeToken u) e) us e
      rw [h1]
      exact ih _ _ h2

/-! The claims.  Each claim of the specification is settled by one theorem
below, named by its claim id. -/

/-- C1 (code bug): the claim says that when the instance attributes carry
only the legacy poll-interval field `os-config-poll-interval` with integer
value `v`, `createConfigFromMetadata` returns a configuration whose poll
interval is `v`.  The code instead panics: the legacy case of the instance
poll-interval switch dereferences the nil current-name pointer
(`config.go` line 234 calls `PollInterval.Int64()` instead of
`PollIntervalOld.Int64()`), so no configuration is returned at all. -/
theorem C1_instance_legacy_poll_panics :
    createConfigFromMetadata defaultFlags initialAgentConfig
      { Instance := { Attributes := { PollIntervalOld := some "7" } } } = none := by decide

/-- C2 (code bug): when all 3 fetch attempts fail (5-second delay between
attempts), `SetConfig` leaves the stored configuration unchanged and makes
exactly 3 attempts, as claimed — but it then unmarshals the empty document
of the failed fetch, so the error it returns is the `json.Unmarshal`
failure, not the classified transport error built by
`formatMetadataError`, contradicting the claim (and the comment at
`config.go` lines 304-305). -/
theorem C2_exhausted_retries_returns_unmarshal_error
    (unmarshal : String → Except String metadataJSON)
    (fetch : Nat → Except transportError String) (fl : flagValues) (store : config)
    (e0 e1 e2 : transportError) (m : String)
    (h0 : fetch 0 = .error e0) (h1 : fetch 1 = .error e1) (h2 : fetch 2 = .error e2)
    (hu : unmarshal "" = .error m) :
    SetConfig unmarshal fetch fl store =
      (some (store, some (.unmarshalErr m)), 3, [interAttemptDelay, interAttemptDelay]) ∧
    ∀ s, setConfigError.unmarshalErr m ≠ setConfigError.webErr s := by
  constructor
  · simp [SetConfig, h0, h1, h2, hu]
  · intro s hc
    exact setConfigError.noConfusion hc

/-- Witness for C2: a run in which every fetch fails with a DNS error and,
as in Go, unmarshalling the empty string fails.  The store is returned
unchanged, 3 attempts are made with two 5-second waits, and the returned
error is the unmarshal error. -/
theorem C2_exhausted_retries_witness :
    SetConfig (fun _ => Except.error "unexpected end of JSON input")
        (fun _ => Except.error (transportError.urlDNS "lookup metadata.google.internal: no such host"))
        defaultFlags initialAgentConfig =
      (some (initialAgentConfig,
          some (setConfigError.unmarshalErr "unexpected end of JSON input")), 3,
        [interAttemptDelay, interAttemptDelay]) :=
  (C2_exhausted_retries_returns_unmarshal_error
    (fun _ => Except.error "unexpected end of JSON input")
    (fun _ => Except.error (transportError.urlDNS "lookup metadata.google.internal: no such host"))
    defaultFlags initialAgentConfig
    (transportError.urlDNS "lookup metadata.google.internal: no such host")
    (transportError.urlDNS "lookup metadata.google.internal: no such host")
    (transportError.urlDNS "lookup metadata.google.internal: no such host")
    "unexpected end of JSON input" rfl rfl rfl rfl).1

/-- C3 counterexample: with both tiers carrying a non-empty legacy debug
field, the debug flag unset and no log-level fields, the resolved
`debugEnabled` is the parsed PROJECT value (`false` here), not the parsed
instance value (`true` here) as the claim states: the first matching case
of the switch at `config.go` lines 239-244 is the project case. -/
theorem C3_instance_debug_counterexample :
    ((createConfigFromMetadata defaultFlags initialAgentConfig
        { Project := { Attributes := { DebugEnabledOld := "false" } },
          Instance := { Attributes := { DebugEnabledOld := "true" } } }).map
      (fun c => c.debugEnabled)) = some false ∧ parseBool "true" = true := by
  constructor
  · decide
  · decide

/-- C3 amended: with both the project and the instance legacy debug field
non-empty, the process debug flag unset and no log-level fields, the
resolved `debugEnabled` equals the parsed PROJECT value — the project
value takes precedence, and the instance value is only consulted when the
project field is empty. -/
theorem C3_project_debug_precedence (fl : flagValues) (old : config) (md : metadataJSON)
    (c : config)
    (hf : fl.debug = false)
    (hp : md.Project.Attributes.DebugEnabledOld ≠ "")
    (_hi : md.Instance.Attributes.DebugEnabledOld ≠ "")
    (hpl : md.Project.Attributes.LogLevel = "")
    (hil : md.Instance.Attributes.LogLevel = "")
    (h : createConfigFromMetadata fl old md = some c) :
    c.debugEnabled = parseBool md.Project.Attributes.DebugEnabledOld := by
  simp only [createConfigFromMetadata] at h
  split at h
  case h_2 => exact Option.noConfusion h
  case h_1 c2 heq =>
    injection h with h
    subst h
    unfold finishConfig
    rw [hpl, hil]
    simp only [applyEndpoint_debugEnabled, applyLogLevel_empty, hf, Bool.false_eq_true,
      if_false]
    simp [applyDebug, hp]

/-- Witness for C3: project says `true`, instance says `false`; the
resolved value is the parsed project value. -/
theorem C3_project_debug_precedence_witness :
    ((createConfigFromMetadata defaultFlags initialAgentConfig
        { Project := { Attributes := { DebugEnabledOld := "true" } },
          Instance := { Attributes := { DebugEnabledOld := "false" } } }).map
      (fun c => c.debugEnabled)) = some (parseBool "true") := by
  cases hE : createConfigFromMetadata defaultFlags initialAgentConfig
      { Project := { Attributes := { DebugEnabledOld := "true" } },
        Instance := { Attributes := { DebugEnabledOld := "false" } } } with
  | none => exact absurd hE (by decide)
  | some c =>
    show some c.debugEnabled = _
    rw [C3_project_debug_precedence _ _ _ _ rfl (by decide) (by decide) rfl rfl hE]

/-- C4 (code bug): the claim says `createConfigFromMetadata` is total and
treats every malformed field as absent.  A document whose instance
attributes carry only the legacy poll-interval field — here with the
non-numeric value "abc", which the claim says must be ignored — makes the
code dereference a nil `*json.Number` (`config.go` line 234) and panic
before the value is even parsed. -/
theorem C4_create_not_total :
    createConfigFromMetadata defaultFlags initialAgentConfig
      { Project := { Attributes := { InventoryEnabled := "not-a-bool" } },
        Instance := { Attributes := { PollIntervalOld := some "abc" } } } = none := by decide

/-- C5 counterexample: the initial store is the zero `config{}`
(`config.go` line 70), so before any successful resolution
`SvcPollInterval` returns 0 (not 10 minutes), `SvcEndpoint` returns the
empty string (not the production endpoint) and the repo-file-path
accessors return the empty string (not the fixed paths), refuting the
claim. -/
theorem C5_initial_defaults_counterexample :
    SvcPollInterval initialAgentConfig ≠ 10 * timeMinute ∧
    SvcEndpoint initialAgentConfig ≠ prodEndpoint ∧
    GooGetRepoFilePathAcc initialAgentConfig ≠ googetRepoFilePath := by
  refine ⟨by decide, by decide, by decide⟩

/-- C5 amended: before any successful resolution the typed accessors
return the ZERO values of the `config` struct — empty endpoint, zero poll
interval, empty repo-file paths — not the hard-coded defaults; only the
boolean feature-flag accessors coincide with their documented defaults,
because those defaults are `false`, the Bool zero value. -/
theorem C5_initial_store_zero_values :
    SvcEndpoint initialAgentConfig = "" ∧
    SvcPollInterval initialAgentConfig = 0 ∧
    GooGetRepoFilePathAcc initialAgentConfig = "" ∧
    ZypperRepoFilePathAcc initialAgentConfig = "" ∧
    YumRepoFilePathAcc initialAgentConfig = "" ∧
    AptRepoFilePathAcc initialAgentConfig = "" ∧
    OSInventoryEnabled initialAgentConfig = osInventoryEnabledDefault ∧
    GuestPoliciesEnabled initialAgentConfig = guestPoliciesEnabledDefault ∧
    TaskNotificationEnabled initialAgentConfig = taskNotificationEnabledDefault ∧
    Debug defaultFlags initialAgentConfig = debugEnabledDefault := by decide

/-- C6: whenever `createConfigFromMetadata` returns a configuration, its
service endpoint is the non-default process flag when set; otherwise the
instance current-name attribute if non-empty; otherwise the instance
legacy-name attribute; otherwise the project current-name attribute;
otherwise the project legacy-name attribute; otherwise the default
production endpoint. -/
theorem C6_endpoint_precedence (fl : flagValues) (old : config) (md : metadataJSON) (c : config)
    (h : createConfigFromMetadata fl old md = some c) :
    c.svcEndpoint =
      if fl.endpoint ≠ prodEndpoint then fl.endpoint
      else if md.Instance.Attributes.OSConfigEndpoint ≠ "" then md.Instance.Attributes.OSConfigEndpoint
      else if md.Instance.Attributes.OSConfigEndpointOld ≠ "" then md.Instance.Attributes.OSConfigEndpointOld
      else if md.Project.Attributes.OSConfigEndpoint ≠ "" then md.Project.Attributes.OSConfigEndpoint
      else if md.Project.Attributes.OSConfigEndpointOld ≠ "" then md.Project.Attributes.OSConfigEndpointOld
      else prodEndpoint := by
  simp only [createConfigFromMetadata] at h
  split at h
  case h_2 => exact Option.noConfusion h
  case h_1 c2 heq =>
    injection h with h
    subst h
    have hpres := applyInstancePollInterval_preserves _ _ _ heq
    have hend : c2.svcEndpoint = prodEndpoint := by
      rw [hpres.1]
      simp [baseConfig]
    unfold finishConfig
    rw [applyEndpoint_svcEndpoint]
    simp only [applyLogLevel_svcEndpoint, applyDebug_svcEndpoint,
      apply_ite (f := config.svcEndpoint), ite_self, hend]

/-- Witness for C6: with no flag and only the instance legacy endpoint
attribute set, the resolved endpoint is the instance legacy value. -/
theorem C6_endpoint_precedence_witness :
    ((createConfigFromMetadata defaultFlags initialAgentConfig
        { Instance := { Attributes := { OSConfigEndpointOld := "legacy.example:443" } } }).map
      (fun c => c.svcEndpoint)) = some "legacy.example:443" := by
  cases hE : createConfigFromMetadata defaultFlags initialAgentConfig
      { Instance := { Attributes := { OSConfigEndpointOld := "legacy.example:443" } } } with
  | none => exact absurd hE (by decide)
  | some c =>
    show some c.svcEndpoint = some "legacy.example:443"
    rw [C6_endpoint_precedence _ _ _ _ hE]
    decide

/-- C7: whenever `createConfigFromMetadata` returns a configuration, each
of the five identity fields is the document value when the document
supplies a non-empty / non-zero / non-nil value, and the previously stored
value otherwise (sticky identity). -/
theorem C7_identity_sticky (fl : flagValues) (old : config) (md : metadataJSON) (c : config)
    (h : createConfigFromMetadata fl old md = some c) :
    c.projectID = (if md.Project.ProjectID = "" then old.projectID else md.Project.ProjectID) ∧
    c.numericProjectID =
      (if md.Project.NumericProjectID = 0 then old.numericProjectID else md.Project.NumericProjectID) ∧
    c.instanceZone = (if md.Instance.Zone = "" then old.instanceZone else md.Instance.Zone) ∧
    c.instanceName = (if md.Instance.Name = "" then old.instanceName else md.Instance.Name) ∧
    c.instanceID = (match md.Instance.ID with | some n => n | none => old.instanceID) := by
  simp only [createConfigFromMetadata] at h
  split at h
  case h_2 => exact Option.noConfusion h
  case h_1 c2 heq =>
    injection h with h
    subst h
    have hpres := applyInstancePollInterval_preserves _ _ _ heq
    obtain ⟨-, -, hp, hn, hz, hm, hi⟩ := hpres
    refine ⟨?_, ?_, ?_, ?_, ?_⟩
    · rw [finishConfig_projectID, hp]
      simp [baseConfig]
    · rw [finishConfig_numericProjectID, hn]
      simp [baseConfig]
    · rw [finishConfig_instanceZone, hz]
      simp [baseConfig]
    · rw [finishConfig_instanceName, hm]
      simp [baseConfig]
    · rw [finishConfig_instanceID, hi]
      simp [baseConfig]

/-- Witness for C7: a document omitting project-id and instance name but
supplying a zone keeps the learned project-id and name and takes the new
zone. -/
theorem C7_identity_sticky_witness :
    ((createConfigFromMetadata defaultFlags
        { projectID := "p0", instanceName := "n0" }
        { Instance := { Zone := "z1" } }).map
      (fun c => (c.projectID, c.instanceName, c.instanceZone))) = some ("p0", "n0", "z1") := by
  cases hE : createConfigFromMetadata defaultFlags
      { projectID := "p0", instanceName := "n0" } { Instance := { Zone := "z1" } } with
  | none => exact absurd hE (by decide)
  | some c =>
    obtain ⟨h1, -, h3, h4, -⟩ := C7_identity_sticky _ _ _ _ hE
    show some (c.projectID, c.instanceName, c.instanceZone) = _
    rw [h1, h3, h4]
    decide

/-- C8: `parseFeatures` is case- and whitespace-insensitive — two feature
lists whose comma-separated tokens agree after trimming and lower-casing
produce identical flag assignments; `tasks` and its deprecated alias
`ospatch` set the task-notification flag, `guestpolicies` and its alias
`ospackage` set the guest-policies flag, `osinventory` sets the inventory
flag, and an unrecognised token leaves all three flags unchanged. -/
theorem C8_parseFeatures_spec :
    (∀ (s1 s2 : String) (c : config) (e : Bool),
        (stringsSplitComma s1).map normalizeToken = (stringsSplitComma s2).map normalizeToken →
        parseFeatures c s1 e = parseFeatures c s2 e) ∧
    (∀ (c : config) (e : Bool),
        applyFeatureToken c "tasks" e = { c with taskNotificationEnabled := e } ∧
        applyFeatureToken c "ospatch" e = { c with taskNotificationEnabled := e } ∧
        applyFeatureToken c "guestpolicies" e = { c with guestPoliciesEnabled := e } ∧
        applyFeatureToken c "ospackage" e = { c with guestPoliciesEnabled := e } ∧
        applyFeatureToken c "osinventory" e = { c with osInventoryEnabled := e }) ∧
    (∀ (c : config) (e : Bool) (t : String),
        normalizeToken t ∉
          (["tasks", "ospatch", "guestpolicies", "ospackage", "osinventory"] : List String) →
        applyFeatureToken c (normalizeToken t) e = c) := by
  refine ⟨?_, ?_, ?_⟩
  · intro s1 s2 c e h
    exact parseFeaturesList_congr _ _ _ _ h
  · intro c e
    exact ⟨rfl, rfl, rfl, rfl, rfl⟩
  · intro c e t h
    simp only [List.mem_cons, List.not_mem_nil, or_false, not_or] at h
    obtain ⟨h1, h2, h3, h4, h5⟩ := h
    unfold applyFeatureToken
    rw [if_neg (by rintro (hc | hc) <;> [exact h1 hc; exact h2 hc])]
    rw [if_neg (by rintro (hc | hc) <;> [exact h3 hc; exact h4 hc])]
    rw [if_neg h5]

/-- Witness for C8: the two example lists of the specification produce the
same flag assignment. -/
theorem C8_parseFeatures_witness :
    parseFeatures initialAgentConfig "OSInventory, GuestPolicies " true =
      parseFeatures initialAgentConfig "osinventory,guestpolicies" true :=
  C8_parseFeatures_spec.1 _ _ _ _ (by decide)

/-- C9: a call to `IDToken` performs no fetch and returns the cached raw
token when the cached expiry lies more than 10 minutes (600 seconds) in
the future, and performs exactly one fetch when no expiry is cached or the
cached expiry is less than 10 minutes away. -/
theorem C9_idToken_cache :
    (∀ (now : Int) (t : idToken) (fetch : Except String String)
        (decode : String → Except String Int) (e : Int),
        t.exp = some e → now + 600 < e →
        IDToken now fetch decode t = (t, Except.ok t.raw, 0)) ∧
    (∀ (now : Int) (t : idToken) (fetch : Except String String)
        (decode : String → Except String Int),
        t.exp = none → (IDToken now fetch decode t).2.2 = 1) ∧
    (∀ (now : Int) (t : idToken) (fetch : Except String String)
        (decode : String → Except String Int) (e : Int),
        t.exp = some e → e < now + 600 → (IDToken now fetch decode t).2.2 = 1) := by
  refine ⟨?_, ?_, ?_⟩
  · intro now t fetch decode e ht hlt
    have hN : idTokenNeedsRefresh now t = false := by
      unfold idTokenNeedsRefresh
      rw [ht]
      simp only [decide_eq_false_iff_not, not_lt]
      omega
    unfold IDToken
    rw [hN]
    simp
  · intro now t fetch decode ht
    have hN : idTokenNeedsRefresh now t = true := by
      unfold idTokenNeedsRefresh
      rw [ht]
    unfold IDToken
    rw [hN]
    simp only [if_true]
    rcases hE : idTokenGet fetch decode t with ⟨t2, o⟩
    cases o <;> rfl
  · intro now t fetch decode e ht hlt
    have hN : idTokenNeedsRefresh now t = true := by
      unfold idTokenNeedsRefresh
      rw [ht]
      simp only [decide_eq_true_eq]
      omega
    unfold IDToken
    rw [hN]
    simp only [if_true]
    rcases hE : idTokenGet fetch decode t with ⟨t2, o⟩
    cases o <;> rfl

/-- Witness for C9: an expiry 601 seconds away triggers no fetch; a
missing expiry and an expiry 599 seconds away each trigger exactly one. -/
theorem C9_idToken_cache_witness :
    IDToken 0 (Except.error "x") (fun _ => Except.ok 0) { raw := "tok", exp := some 601 } =
      ({ raw := "tok", exp := some 601 }, Except.ok "tok", 0) ∧
    (IDToken 0 (Except.error "x") (fun _ => Except.ok 0) { raw := "", exp := none }).2.2 = 1 ∧
    (IDToken 0 (Except.ok "newtok") (fun _ => Except.ok 9999)
      { raw := "tok", exp := some 599 }).2.2 = 1 :=
  ⟨C9_idToken_cache.1 0 _ _ _ 601 rfl (by decide),
   C9_idToken_cache.2.1 0 _ _ _ rfl,
   C9_idToken_cache.2.2 0 _ _ _ 599 rfl (by decide)⟩

/-- On an error result, `idToken.get` leaves the cached struct untouched:
both the fetch-error return and the decode-error return occur before
`t.raw` and `t.exp` are assigned. -/
theorem idTokenGet_error (fetch : Except String String) (decode : String → Except String Int)
    (t : idToken) (msg : String) (h : (idTokenGet fetch decode t).2 = some msg) :
    idTokenGet fetch decode t = (t, some msg) := by
  unfold idTokenGet at h ⊢
  cases fetch with
  | error e =>
    simp only at h ⊢
    injection h with h
    rw [← h]
  | ok data =>
    simp only at h ⊢
    cases hd : decode data with
    | error e =>
      rw [hd] at h
      simp only at h
      injection h with h
      rw [← h]
    | ok exp =>
      rw [hd] at h
      simp only at h
      exact Option.noConfusion h

/-- C10: when the refresh performed inside `IDToken` fails — fetch error
or decode error — `IDToken` returns the error (the Go code returns `""`
together with it), never falls back to a previously cached token, and the
cached raw token and expiry are unchanged. -/
theorem C10_refresh_failure (now : Int) (t : idToken) (fetch : Except String String)
    (decode : String → Except String Int) (msg : String)
    (hN : idTokenNeedsRefresh now t = true)
    (hE : (idTokenGet fetch decode t).2 = some msg) :
    IDToken now fetch decode t = (t, Except.error msg, 1) := by
  have hG := idTokenGet_error fetch decode t msg hE
  unfold IDToken
  rw [hN]
  simp only [if_true]
  rw [hG]

/-- Witness for C10: a failing fetch during a near-expiry refresh returns
the error and leaves the cached token and expiry unchanged. -/
theorem C10_refresh_failure_witness :
    IDToken 0 (Except.error "boom") (fun _ => Except.ok 0) { raw := "old", exp := some 100 } =
      ({ raw := "old", exp := some 100 },
        Except.error "error getting token from metadata: boom", 1) :=
  C10_refresh_failure 0 _ _ _ _ (by decide) (by decide)

end OSConfig

